import Mathlib

/-!
Shallow embedding of the arcade-cabinet/cognitive-dissonance repository,
covering the grading system, the governor decision strategies, the
mulberry32 RNG, the Variant A level store and pattern stabilizer, the
game worker's click handling, and high-score persistence.

JavaScript numbers are modelled as rationals (ℚ); 32-bit integer
arithmetic is modelled on ℕ with explicit reduction modulo 2^32.
-/

namespace CogDis

/-! ### src/lib/grading.ts -/

/-- Result record of `calculateGrade`. -/
structure GradeInfo where
  grade : String
  className : String
deriving DecidableEq, Repr

/-- `calculateGrade(win, accuracy, maxCombo)` from src/lib/grading.ts:
the if-chain over win, accuracy and maxCombo. -/
def calculateGrade (win : Bool) (accuracy maxCombo : ℚ) : GradeInfo :=
  if win ∧ accuracy > 9/10 ∧ maxCombo > 8 then ⟨"S", "grade-s"⟩
  else if win ∧ accuracy > 3/4 then ⟨"A", "grade-a"⟩
  else if win then ⟨"B", "grade-b"⟩
  else if accuracy > 1/2 then ⟨"C", "grade-c"⟩
  else ⟨"D", "grade-d"⟩

/-- `calculateAccuracy(totalC, totalM)` from src/lib/grading.ts:
`totalC / Math.max(1, totalC + totalM)` on non-negative integer counts. -/
def calculateAccuracy (totalC totalM : ℕ) : ℚ :=
  (totalC : ℚ) / max 1 ((totalC : ℚ) + (totalM : ℚ))

end CogDis

namespace CogDis

/-! ### e2e governor: types.ts and strategies.ts -/

/-- Counter ability types matching the game's 3 abilities. -/
inductive CounterType
  | reality
  | history
  | logic
deriving DecidableEq, Repr

/-- A JavaScript key value: the four function keys, or `undefined`
(what JS out-of-range indexing would yield). -/
inductive JSKey
  | F1
  | F2
  | F3
  | F4
  | undefinedVal
deriving DecidableEq, Repr

/-- `NUKE_KEY = 'F4'` from types.ts. -/
def NUKE_KEY : JSKey := .F4

/-- `COUNTER_KEY_MAP` from types.ts. -/
def COUNTER_KEY_MAP : CounterType → JSKey
  | .reality => .F1
  | .history => .F2
  | .logic => .F3

/-- `ABILITY_KEYS = ['F1','F2','F3']` from types.ts. -/
def ABILITY_KEYS : List JSKey := [.F1, .F2, .F3]

/-- `ResolvedConfig` from types.ts. -/
structure ResolvedConfig where
  aggressiveness : ℚ
  reactionTime : ℚ
  useSpecials : Bool
  accuracy : ℚ
  nukeThreshold : ℚ
deriving DecidableEq, Repr

/-- `GameSnapshot` from types.ts. -/
structure GameSnapshot where
  panic : ℚ
  score : ℚ
  time : ℚ
  nukeReady : Bool
  enemyCounters : List CounterType
deriving DecidableEq, Repr

/-- `GovernorAction` from types.ts. -/
inductive GovernorAction
  | press (key : JSKey)
  | wait
deriving DecidableEq, Repr

/-- `evaluateNuke(snapshot, config)` from strategies.ts. -/
def evaluateNuke (snapshot : GameSnapshot) (config : ResolvedConfig) :
    Option GovernorAction :=
  if config.useSpecials ∧ snapshot.nukeReady ∧ snapshot.panic > config.nukeThreshold
  then some (.press NUKE_KEY)
  else none

/-- `randomAbilityKey(rng)` from strategies.ts, applied to one RNG draw:
`ABILITY_KEYS[Math.floor(r * ABILITY_KEYS.length)]`, with JS out-of-range
indexing yielding `undefined`. -/
def randomAbilityKey (r : ℚ) : JSKey :=
  if ⌊r * (ABILITY_KEYS.length : ℚ)⌋ < 0 then .undefinedVal
  else ABILITY_KEYS.getD (⌊r * (ABILITY_KEYS.length : ℚ)⌋).toNat .undefinedVal

/-- JS object key order for the `freq` map built by `bestCounterKey`:
distinct counter types in order of first occurrence. -/
def insertionOrder (counters : List CounterType) : List CounterType :=
  counters.foldl (fun acc c => if c ∈ acc then acc else acc ++ [c]) []

/-- `bestCounterKey(enemyCounters)` from strategies.ts: frequency analysis,
initial best = `enemyCounters[0]` with count 0, strict-improvement scan in
object insertion order, then `COUNTER_KEY_MAP[bestType]`. -/
def bestCounterKey (enemyCounters : List CounterType) : JSKey :=
  let scan := (insertionOrder enemyCounters).foldl
    (fun (acc : Option CounterType × ℕ) ty =>
      if enemyCounters.count ty > acc.2 then (some ty, enemyCounters.count ty) else acc)
    (enemyCounters.head?, 0)
  match scan.1 with
  | some ty => COUNTER_KEY_MAP ty
  | none => .undefinedVal

/-- `decideAction(snapshot, config, rng)` from strategies.ts. The stateful
`rng` closure is modelled as the sequence of its draws, indexed in call
order: draw 0 is the accuracy roll, draw 1 the random-key pick (on a miss
or when no enemies are present), and the aggressiveness gate consumes the
next draw after the key is determined. -/
def decideAction (snapshot : GameSnapshot) (config : ResolvedConfig)
    (rng : ℕ → ℚ) : GovernorAction :=
  match evaluateNuke snapshot config with
  | some a => a
  | none =>
    if rng 0 > config.accuracy then
      .press (randomAbilityKey (rng 1))
    else if snapshot.enemyCounters.length > 0 then
      if rng 1 < config.aggressiveness then .press (bestCounterKey snapshot.enemyCounters)
      else .wait
    else
      if rng 2 < config.aggressiveness then .press (randomAbilityKey (rng 1))
      else .wait

/-! ### src/store/level-store.ts (Variant A) -/

/-- State fields of useLevelStore. -/
structure LevelState where
  currentLevel : ℚ
  coherence : ℚ
  peakCoherence : ℚ
  tension : ℚ
deriving DecidableEq, Repr

/-- The store's initial values. -/
def initialLevelState : LevelState := ⟨1, 25, 25, 12/100⟩

/-- `advanceLevel()`: increments the level and adds 8 coherence,
clamped above at 100. -/
def advanceLevel (s : LevelState) : LevelState :=
  { s with
    currentLevel := s.currentLevel + 1
    coherence := min 100 (s.coherence + 8) }

/-- `addCoherence(amount)`: adds the amount, clamped above at 100,
and tracks the peak. -/
def addCoherence (s : LevelState) (amount : ℚ) : LevelState :=
  { s with
    coherence := min 100 (s.coherence + amount)
    peakCoherence := max s.peakCoherence (min 100 (s.coherence + amount)) }

/-- `setTension(value)`: clamps the value into [0, 1]. -/
def setTension (s : LevelState) (value : ℚ) : LevelState :=
  { s with tension := max 0 (min 1 value) }

/-- `reset()`: restores the initial defaults. -/
def reset (_ : LevelState) : LevelState := initialLevelState

/-- The domain invariants of the level store: coherence in 0–100 and
tension in 0–1. -/
def LevelInvariant (s : LevelState) : Prop :=
  0 ≤ s.coherence ∧ s.coherence ≤ 100 ∧ 0 ≤ s.tension ∧ s.tension ≤ 1

/-! ### src/store/input-store.ts and src/components/pattern-stabilizer.tsx -/

/-- Input store state: the currently-held keycap indices. -/
structure InputState where
  held : List ℕ
deriving DecidableEq, Repr

/-- The input store's derived isAnyHeld flag. -/
def isAnyHeld (s : InputState) : Bool := !s.held.isEmpty

/-- One per-frame progress update of a corruption pattern in
PatternStabilizer: progress advances by speed·dt, and when ANY keycap is
held it is pulled back by 2.4·dt, clamped at 0. The update reads only the
isAnyHeld flag — the held key's colour plays no role. -/
def patternStep (progress speed dt : ℚ) (input : InputState) : ℚ :=
  if isAnyHeld input then max 0 (progress + speed * dt - 12/5 * dt)
  else progress + speed * dt

/-- End-of-frame fate of a pattern in PatternStabilizer: progress ≥ 1
spikes tension by 0.22 (clamped at 1) and destroys the pattern;
progress ≤ 0 adds 3 coherence and destroys it; otherwise it stays. -/
def patternResolve (p : ℚ) (s : LevelState) : LevelState × Bool :=
  if p ≥ 1 then (setTension s (s.tension + 22/100), true)
  else if p ≤ 0 then (addCoherence s 3, true)
  else (s, false)

/-! ### High-score persistence (Variant A) -/

/-- `HighScoreData` record. -/
structure HighScoreData where
  peakCoherence : ℚ
  levelsSurvived : ℚ
  seed : String
deriving DecidableEq, Repr

/-- `DEFAULT_HIGH_SCORE`: the all-zero/empty record. -/
def DEFAULT_HIGH_SCORE : HighScoreData := ⟨0, 0, ""⟩

/-- What reading the high-score key from the environment can produce:
no window (SSR), no stored value, a value JSON.parse rejects, the JSON
value null (whose property reads throw, caught by the surrounding try),
a non-record JSON value (whose property reads yield undefined), or a
record with each relevant field either present or missing/null. -/
inductive StoredContent
  | noWindow
  | absent
  | notJson
  | nullJson
  | nonRecord
  | record (peakCoherence levelsSurvived : Option ℚ) (seed : Option String)
deriving DecidableEq, Repr

/-- `loadHighScore()`: every non-record read yields the defaults; a
record read defaults each missing/null field individually via `??`. -/
def loadHighScore : StoredContent → HighScoreData
  | .record pc ls sd => ⟨pc.getD 0, ls.getD 0, sd.getD ""⟩
  | _ => DEFAULT_HIGH_SCORE

/-- Storage conditions `saveHighScore` can meet. -/
structure StorageEnv where
  hasWindow : Bool
  setItemFails : Bool
deriving DecidableEq, Repr

/-- `localStorage.setItem` under the given conditions: throws when the
storage is full or unavailable, otherwise overwrites the cell. -/
def setItem (env : StorageEnv) (data : HighScoreData)
    (_cell : Option HighScoreData) : Except Unit (Option HighScoreData) :=
  if env.setItemFails then .error () else .ok (some data)

/-- `saveHighScore(data)`: no-op without a window; otherwise calls
setItem inside try/catch, silently ignoring a failure. Returns the
resulting storage cell — the function itself never throws. -/
def saveHighScore (env : StorageEnv) (cell : Option HighScoreData)
    (data : HighScoreData) : Option HighScoreData :=
  if env.hasWindow = false then cell
  else
    match setItem env data cell with
    | .ok c => c
    | .error _ => cell

/-! ### e2e/helpers/governor/rng.ts — mulberry32 -/

/-- `state = (state + 0x6D2B79F5) | 0`: the per-draw state update,
on unsigned 32-bit patterns. -/
def mbStep (s : ℕ) : ℕ := (s + 0x6D2B79F5) % 2^32

/-- `Math.imul(state ^ (state >>> 15), 1 | state)` as a 32-bit pattern. -/
def mbT1 (s : ℕ) : ℕ := (Nat.xor s (s >>> 15) * (1 ||| s)) % 2^32

/-- `t = (t + Math.imul(t ^ (t >>> 7), 61 | t)) ^ t`: the float sum is
reduced modulo 2^32 by the xor's ToInt32 conversion. -/
def mbT2 (s : ℕ) : ℕ :=
  Nat.xor ((mbT1 s + (Nat.xor (mbT1 s) (mbT1 s >>> 7) * (61 ||| mbT1 s)) % 2^32) % 2^32)
    (mbT1 s)

/-- `(t ^ (t >>> 14)) >>> 0`: the draw's 32-bit numerator. -/
def mulberryOutput (s : ℕ) : ℕ := Nat.xor (mbT2 s) (mbT2 s >>> 14) % 2^32

/-- The internal state of `createRng(seed)` after n updates; state 0 is
`seed | 0`, i.e. the seed's unsigned 32-bit pattern. -/
def createRngState (seed : ℤ) : ℕ → ℕ
  | 0 => (seed % 2^32).toNat
  | n + 1 => mbStep (createRngState seed n)

/-- The n-th value returned by `createRng(seed)` (n = 0 for the first
call): the scrambled post-update state divided by 4294967296. -/
def createRngDraw (seed : ℤ) (n : ℕ) : ℚ :=
  (mulberryOutput (createRngState seed (n + 1)) : ℚ) / 4294967296

/-! ### src/worker/game.worker.ts — CLICK handling -/

/-- An enemy's type record (its counter-ability affinity). -/
structure EnemyType where
  counter : CounterType
deriving DecidableEq, Repr

/-- The fields of an enemy the CLICK handler inspects. -/
structure Enemy where
  type : EnemyType
  encrypted : Bool
deriving DecidableEq, Repr

/-- The CLICK case of the worker's onmessage handler: hit-test via
findEnemyAt, then `if (enemy && !enemy.encrypted)` trigger the enemy's
counter ability. Returns the ability triggered, if any. -/
def handleClick (findEnemyAt : ℚ → ℚ → Option Enemy) (x y : ℚ) :
    Option CounterType :=
  match findEnemyAt x y with
  | some enemy => if enemy.encrypted then none else some enemy.type.counter
  | none => none

/-- C1: the grading ladder, branch by branch, plus non-empty classNames. -/
theorem calculateGrade_ladder (win : Bool) (accuracy maxCombo : ℚ) :
    ((win = true ∧ accuracy > 9/10 ∧ maxCombo > 8) →
      calculateGrade win accuracy maxCombo = ⟨"S", "grade-s"⟩) ∧
    ((win = true ∧ ¬(accuracy > 9/10 ∧ maxCombo > 8) ∧ accuracy > 3/4) →
      calculateGrade win accuracy maxCombo = ⟨"A", "grade-a"⟩) ∧
    ((win = true ∧ ¬(accuracy > 9/10 ∧ maxCombo > 8) ∧ ¬accuracy > 3/4) →
      calculateGrade win accuracy maxCombo = ⟨"B", "grade-b"⟩) ∧
    ((win = false ∧ accuracy > 1/2) →
      calculateGrade win accuracy maxCombo = ⟨"C", "grade-c"⟩) ∧
    ((win = false ∧ ¬accuracy > 1/2) →
      calculateGrade win accuracy maxCombo = ⟨"D", "grade-d"⟩) ∧
    (calculateGrade win accuracy maxCombo).className ≠ "" := by
  unfold calculateGrade
  refine ⟨?_, ?_, ?_, ?_, ?_, ?_⟩
  · rintro ⟨hw, h9, h8⟩
    simp [hw, h9, h8]
  · rintro ⟨hw, hn, h75⟩
    subst hw
    rw [if_neg (by tauto), if_pos (by tauto)]
  · rintro ⟨hw, hn, h75⟩
    subst hw
    rw [if_neg (by tauto), if_neg (by tauto), if_pos (by tauto)]
  · rintro ⟨hw, h5⟩
    subst hw
    rw [if_neg (by simp), if_neg (by simp), if_neg (by simp), if_pos h5]
  · rintro ⟨hw, h5⟩
    subst hw
    rw [if_neg (by simp), if_neg (by simp), if_neg (by simp), if_neg h5]
  · split <;> try simp
    split <;> try simp
    split <;> try simp
    split <;> simp

/-- Witness for C1: the ladder evaluated at the spec's concrete examples. -/
theorem calculateGrade_ladder_witness :
    calculateGrade true (95/100) 20 = ⟨"S", "grade-s"⟩ ∧
    calculateGrade true (8/10) 10 = ⟨"A", "grade-a"⟩ ∧
    calculateGrade false (1/10) 1 = ⟨"D", "grade-d"⟩ := by
  refine ⟨?_, ?_, ?_⟩
  · exact (calculateGrade_ladder true (95/100) 20).1 ⟨rfl, by norm_num, by norm_num⟩
  · exact (calculateGrade_ladder true (8/10) 10).2.1 ⟨rfl, by norm_num, by norm_num⟩
  · exact (calculateGrade_ladder false (1/10) 1).2.2.2.2.1 ⟨rfl, by norm_num⟩

/-- C2: calculateAccuracy equals the guarded quotient, lies in [0,1],
and is exactly 0 at (0,0). -/
theorem calculateAccuracy_spec (totalC totalM : ℕ) :
    calculateAccuracy totalC totalM
      = (totalC : ℚ) / max 1 ((totalC : ℚ) + (totalM : ℚ)) ∧
    0 ≤ calculateAccuracy totalC totalM ∧
    calculateAccuracy totalC totalM ≤ 1 ∧
    calculateAccuracy 0 0 = 0 := by
  refine ⟨rfl, ?_, ?_, by norm_num [calculateAccuracy]⟩
  · unfold calculateAccuracy
    positivity
  · unfold calculateAccuracy
    rw [div_le_one (by positivity)]
    rcases le_or_lt ((totalC : ℚ) + (totalM : ℚ)) 1 with h | h
    · rw [max_eq_left h]
      calc (totalC : ℚ) ≤ (totalC : ℚ) + (totalM : ℚ) :=
            le_add_of_nonneg_right (by positivity)
        _ ≤ 1 := h
    · rw [max_eq_right h.le]
      exact le_add_of_nonneg_right (by positivity)

/-- Unfolding lemma: when the nuke is not taken, decideAction is the
miss-roll / counter-selection / aggressiveness-gate chain. -/
theorem decideAction_of_nuke_none (snapshot : GameSnapshot)
    (config : ResolvedConfig) (rng : ℕ → ℚ)
    (hn : evaluateNuke snapshot config = none) :
    decideAction snapshot config rng =
      if rng 0 > config.accuracy then .press (randomAbilityKey (rng 1))
      else if snapshot.enemyCounters.length > 0 then
        if rng 1 < config.aggressiveness
        then .press (bestCounterKey snapshot.enemyCounters)
        else .wait
      else
        if rng 2 < config.aggressiveness then .press (randomAbilityKey (rng 1))
        else .wait := by
  unfold decideAction
  rw [hn]

/-- C3: whenever specials are enabled, the nuke is ready and panic strictly
exceeds the threshold, decideAction returns the nuke press (F4) for every
RNG — the nuke check pre-empts the miss and counter paths. -/
theorem decideAction_nuke_preempts (snapshot : GameSnapshot)
    (config : ResolvedConfig) (rng : ℕ → ℚ)
    (hs : config.useSpecials = true) (hr : snapshot.nukeReady = true)
    (hp : snapshot.panic > config.nukeThreshold) :
    decideAction snapshot config rng = .press NUKE_KEY := by
  unfold decideAction evaluateNuke
  simp [hs, hr, hp]

/-- Witness for C3: the spec's concrete scenario (panic 80, nuke ready,
one reality enemy, threshold 50) under an arbitrary constant RNG. -/
theorem decideAction_nuke_preempts_witness :
    decideAction ⟨80, 0, 0, true, [.reality]⟩ ⟨7/10, 300, true, 8/10, 50⟩
      (fun _ => 1/2) = .press NUKE_KEY :=
  decideAction_nuke_preempts ⟨80, 0, 0, true, [.reality]⟩
    ⟨7/10, 300, true, 8/10, 50⟩ (fun _ => 1/2) rfl rfl (by norm_num)

/-- Snapshot for the C4 scenarios: no nuke eligibility, no enemies. -/
def c4Snapshot : GameSnapshot := ⟨30, 100, 10, false, []⟩

/-- Config for the C4 scenarios: aggressiveness 0, accuracy 0.8. -/
def c4Config : ResolvedConfig := ⟨0, 300, true, 8/10, 50⟩

/-- Counterexample to C4 as stated: with aggressiveness 0, nuke not
eligible, accuracy 0.8 and every RNG draw 0.95, decideAction does not
return wait — the accuracy-miss path fires first and presses a random
key (F3 here). -/
theorem decideAction_agg0_counterexample :
    evaluateNuke c4Snapshot c4Config = none ∧
    c4Config.aggressiveness = 0 ∧
    decideAction c4Snapshot c4Config (fun _ => 19/20) = .press .F3 ∧
    decideAction c4Snapshot c4Config (fun _ => 19/20) ≠ .wait := by
  have hnuke : evaluateNuke c4Snapshot c4Config = none := by
    unfold evaluateNuke c4Snapshot c4Config
    simp
  have hkey : randomAbilityKey (19/20) = JSKey.F3 := by
    unfold randomAbilityKey
    have hfl : ⌊(19/20 : ℚ) * (ABILITY_KEYS.length : ℚ)⌋ = 2 := by
      rw [Int.floor_eq_iff]
      norm_num [ABILITY_KEYS]
    rw [hfl, if_neg (by norm_num)]
    rfl
  have hda : decideAction c4Snapshot c4Config (fun _ => 19/20) = .press .F3 := by
    rw [decideAction_of_nuke_none _ _ _ hnuke]
    norm_num [c4Config, hkey]
  exact ⟨hnuke, rfl, hda, by rw [hda]; simp⟩

/-- C4 (amended): when the nuke is not eligible, aggressiveness is 0, the
RNG's draws are non-negative, and the accuracy roll passes (draw 0 does
not exceed the accuracy), decideAction returns wait. -/
theorem decideAction_agg0_wait (snapshot : GameSnapshot)
    (config : ResolvedConfig) (rng : ℕ → ℚ)
    (hn : evaluateNuke snapshot config = none)
    (ha : config.aggressiveness = 0)
    (hrng : ∀ n, 0 ≤ rng n)
    (hacc : rng 0 ≤ config.accuracy) :
    decideAction snapshot config rng = .wait := by
  rw [decideAction_of_nuke_none _ _ _ hn, ha, if_neg (not_lt.mpr hacc)]
  split
  · rw [if_neg (not_lt.mpr (hrng 1))]
  · rw [if_neg (not_lt.mpr (hrng 2))]

/-- Witness for the amended C4: the concrete no-nuke snapshot with
aggressiveness 0 and a constant RNG of 0.5 (below the 0.8 accuracy). -/
theorem decideAction_agg0_wait_witness :
    decideAction c4Snapshot c4Config (fun _ => 1/2) = .wait :=
  decideAction_agg0_wait c4Snapshot c4Config (fun _ => 1/2) rfl rfl
    (fun _ => by norm_num) (by norm_num [c4Config])

/-- C5 (documents the code's behavior at the failing input): the frame
update reads only isAnyHeld, so holding the single keycap 7 — with no
assumption that it matches the pattern's colour — pulls the pattern from
progress 0.5 back to 0.29, while holding nothing lets it advance to 0.53;
and a pattern reaching 1 spikes tension while one reaching 0 adds
coherence, each destroying the pattern. -/
theorem patternStep_anyKeyHeld_bug :
    patternStep (1/2) (3/10) (1/10) ⟨[7]⟩ = 29/100 ∧
    patternStep (1/2) (3/10) (1/10) ⟨[7]⟩ < 1/2 ∧
    patternStep (1/2) (3/10) (1/10) ⟨[]⟩ = 53/100 ∧
    patternResolve 1 initialLevelState
      = (setTension initialLevelState (initialLevelState.tension + 22/100), true) ∧
    patternResolve 0 initialLevelState = (addCoherence initialLevelState 3, true) := by
  refine ⟨?_, ?_, ?_, ?_, ?_⟩ <;>
    norm_num [patternStep, patternResolve, isAnyHeld, max_def]

/-- Counterexample to C6 as stated: addCoherence clamps only above, so
the amount -30 applied to the initial state leaves coherence at -5,
outside 0–100. -/
theorem addCoherence_negative_counterexample :
    LevelInvariant initialLevelState ∧
    (addCoherence initialLevelState (-30)).coherence = -5 ∧
    ¬ LevelInvariant (addCoherence initialLevelState (-30)) := by
  refine ⟨by norm_num [LevelInvariant, initialLevelState], ?_, ?_⟩
  · norm_num [addCoherence, initialLevelState, min_def]
  · intro h
    have h0 := h.1
    norm_num [addCoherence, initialLevelState, min_def] at h0

/-- C6 (amended): from any state satisfying the invariants, advanceLevel,
addCoherence with a non-negative amount, and setTension with any value
keep coherence in 0–100 and tension in 0–1; reset restores exactly
{currentLevel 1, coherence 25, peakCoherence 25, tension 0.12}, which
satisfies the invariants. (A negative addCoherence amount can push
coherence below 0, since only the upper bound is clamped.) -/
theorem levelStore_invariants (s : LevelState) (amount value : ℚ)
    (hs : LevelInvariant s) :
    LevelInvariant (advanceLevel s) ∧
    (0 ≤ amount → LevelInvariant (addCoherence s amount)) ∧
    LevelInvariant (setTension s value) ∧
    reset s = initialLevelState ∧
    initialLevelState = ⟨1, 25, 25, 12/100⟩ ∧
    LevelInvariant initialLevelState := by
  obtain ⟨hc0, hc1, ht0, ht1⟩ := hs
  refine ⟨?_, ?_, ?_, rfl, rfl, by norm_num [LevelInvariant, initialLevelState]⟩
  · exact ⟨le_min (by norm_num) (by linarith), min_le_left _ _, ht0, ht1⟩
  · intro ham
    exact ⟨le_min (by norm_num) (by linarith), min_le_left _ _, ht0, ht1⟩
  · exact ⟨hc0, hc1, le_max_left _ _, max_le (by norm_num) (min_le_left _ _)⟩

/-- Witness for the amended C6: the operations applied to the initial
state with amount 3 and tension value 1.25. -/
theorem levelStore_invariants_witness :
    LevelInvariant (advanceLevel initialLevelState) ∧
    (0 ≤ (3 : ℚ) → LevelInvariant (addCoherence initialLevelState 3)) ∧
    LevelInvariant (setTension initialLevelState (5/4)) ∧
    reset initialLevelState = initialLevelState ∧
    initialLevelState = ⟨1, 25, 25, 12/100⟩ ∧
    LevelInvariant initialLevelState :=
  levelStore_invariants initialLevelState 3 (5/4)
    (by norm_num [LevelInvariant, initialLevelState])

/-- C7: loadHighScore is total over arbitrary stored content: corrupted,
absent, null and non-record reads all yield the all-default record;
a partial record like {peakCoherence: 42} yields {42, 0, ''}; and in
general each missing field is defaulted individually while present
fields are preserved. -/
theorem loadHighScore_tolerant :
    loadHighScore .notJson = DEFAULT_HIGH_SCORE ∧
    loadHighScore .noWindow = DEFAULT_HIGH_SCORE ∧
    loadHighScore .absent = DEFAULT_HIGH_SCORE ∧
    loadHighScore .nullJson = DEFAULT_HIGH_SCORE ∧
    loadHighScore .nonRecord = DEFAULT_HIGH_SCORE ∧
    loadHighScore (.record (some 42) none none) = ⟨42, 0, ""⟩ ∧
    (∀ pc ls sd, loadHighScore (.record pc ls sd)
      = ⟨pc.getD 0, ls.getD 0, sd.getD ""⟩) ∧
    DEFAULT_HIGH_SCORE = ⟨0, 0, ""⟩ :=
  ⟨rfl, rfl, rfl, rfl, rfl, rfl, fun _ _ _ => rfl, rfl⟩

/-- C8: every draw of the mulberry32 generator, for every integer seed
(including 0 and negatives) and every draw index, lies in [0, 1). -/
theorem createRngDraw_range (seed : ℤ) (n : ℕ) :
    0 ≤ createRngDraw seed n ∧ createRngDraw seed n < 1 := by
  unfold createRngDraw
  constructor
  · positivity
  · rw [div_lt_one (by norm_num)]
    have h : mulberryOutput (createRngState seed (n + 1)) < 2^32 :=
      Nat.mod_lt _ (by norm_num)
    calc (mulberryOutput (createRngState seed (n + 1)) : ℚ)
        < ((2^32 : ℕ) : ℚ) := by exact_mod_cast h
      _ = 4294967296 := by norm_num

/-- C9: for every hit-test function and every click coordinate, if the
enemy found there is encrypted — or no enemy is found — the CLICK
handler triggers no counter ability. -/
theorem click_ignores_encrypted (findEnemyAt : ℚ → ℚ → Option Enemy)
    (x y : ℚ) (h : ∀ e, findEnemyAt x y = some e → e.encrypted = true) :
    handleClick findEnemyAt x y = none := by
  unfold handleClick
  cases hf : findEnemyAt x y with
  | none => rfl
  | some e => simp [h e hf]

/-- Witness for C9: a click at (0, 0) that hits an encrypted reality
enemy triggers nothing. -/
theorem click_ignores_encrypted_witness :
    handleClick (fun _ _ => some ⟨⟨.reality⟩, true⟩) 0 0 = none :=
  click_ignores_encrypted (fun _ _ => some ⟨⟨.reality⟩, true⟩) 0 0
    (fun e he => by
      simp only [Option.some.injEq] at he
      rw [← he])

/-- C10: saveHighScore never throws: without a window it is a no-op, a
setItem failure is swallowed leaving storage unchanged, and only with a
window and a successful setItem is the record stored. -/
theorem saveHighScore_never_throws (env : StorageEnv)
    (cell : Option HighScoreData) (data : HighScoreData) :
    saveHighScore env cell data =
      if env.hasWindow = true ∧ env.setItemFails = false then some data
      else cell := by
  unfold saveHighScore setItem
  rcases env with ⟨hw, fails⟩
  cases hw <;> cases fails <;> simp

end CogDis
